import Mathlib

/-!
Formal model of the itinerary-generation core of the hk-trip-planner
repository, shallowly embedded from `models.py`, `services/venue_service.py`
(the SQL WHERE clause of `search_venues`) and `services/itinerary_engine.py`.

Monetary amounts (Python floats) are modelled as rationals; Python's
`random.choice` / `random.sample` are modelled as explicit function
parameters constrained only by the properties every run of the Python
functions satisfies (membership, size, distinctness), so that a theorem
quantified over those parameters covers every outcome of the random source.
-/

namespace HKTrip

/-- Mirrors `models.VenueCategory`. -/
inductive VenueCategory where
  | attraction
  | restaurant
  | transport
  | shopping
  | park
  | museum
deriving DecidableEq, Repr

/-- Mirrors `models.WeatherSuitability`. -/
inductive WeatherSuitability where
  | indoor
  | outdoor
  | mixed
deriving DecidableEq, Repr

/-- Mirrors `models.AccessibilityInfo` (the free-text notes field is irrelevant to
the claims and is omitted). -/
structure AccessibilityInfo where
  has_elevator : Bool := false
  wheelchair_accessible : Bool := false
  accessible_toilets : Bool := false
  step_free_access : Bool := false
  parent_facilities : Bool := false
  rest_areas : Bool := false
  difficulty_level : Int := 1
deriving DecidableEq, Repr

/-- Mirrors `models.DietaryOption` (free-text notes omitted). -/
structure DietaryOption where
  soft_meals : Bool := false
  vegetarian : Bool := false
  halal : Bool := false
  no_seafood : Bool := false
  allergy_friendly : Bool := false
deriving DecidableEq, Repr

/-- Mirrors `models.Venue` (location, opening hours and the free-text fields play no
role in the engine's logic and are omitted). -/
structure Venue where
  id : String
  name : String
  category : VenueCategory
  accessibility : AccessibilityInfo := {}
  dietary_options : DietaryOption := {}
  cost_range : Int × Int
  weather_suitability : WeatherSuitability := WeatherSuitability.mixed
  elderly_discount : Bool := false
  child_discount : Bool := false
deriving DecidableEq, Repr

instance : Inhabited Venue :=
  ⟨{ id := "", name := "", category := VenueCategory.attraction, cost_range := (0, 0) }⟩

/-- Mirrors `models.UserPreferences`; the `family_composition` dict is modelled by
its three keys (`adults`, `children`, `seniors`). -/
structure UserPreferences where
  adults : Nat := 0
  children : Nat := 0
  seniors : Nat := 0
  mobility_needs : List String := []
  dietary_restrictions : List String := []
  budget_range : Int × Int
  trip_duration : Nat := 1
  transportation_preference : List String := []
deriving DecidableEq, Repr

/-- Mirrors `UserPreferences.total_people`. -/
def UserPreferences.total_people (p : UserPreferences) : Nat :=
  p.adults + p.children + p.seniors

/-- Mirrors `UserPreferences.has_seniors`. -/
def UserPreferences.has_seniors (p : UserPreferences) : Bool :=
  decide (0 < p.seniors)

/-- Mirrors `UserPreferences.has_children`. -/
def UserPreferences.has_children (p : UserPreferences) : Bool :=
  decide (0 < p.children)

/-- Mirrors `UserPreferences.requires_accessibility`. -/
def UserPreferences.requires_accessibility (p : UserPreferences) : Bool :=
  decide (0 < p.mobility_needs.length)

/-- Mirrors `models.WeatherData` (date omitted). -/
structure WeatherData where
  temperature : ℚ
  humidity : ℚ
  rainfall_probability : ℚ
  is_suitable_for_outdoor : Bool := true
deriving DecidableEq, Repr

/-- Mirrors `models.SearchCriteria`. -/
structure SearchCriteria where
  categories : List VenueCategory := []
  accessibility_required : List String := []
  dietary_required : List String := []
  max_cost : Option Int := none
  weather_suitability : Option WeatherSuitability := none
  district : Option String := none
deriving DecidableEq, Repr

/-- Mirrors `models.TransportSegment`. -/
structure TransportSegment where
  origin : String
  destination : String
  mode : String
  duration_minutes : Nat
  cost : ℚ
deriving DecidableEq, Repr

/-- Mirrors `models.DayPlan`. -/
structure DayPlan where
  day : Nat
  venues : List Venue
  transportation : List TransportSegment
  estimated_cost : ℚ
  total_walking_distance : ℚ
  accessibility_notes : List String := []
  weather_considerations : List String := []
deriving DecidableEq, Repr

/-- Mirrors `models.CostBreakdown`. -/
structure CostBreakdown where
  attractions : ℚ
  meals : ℚ
  transportation : ℚ
  total : ℚ
  cost_per_person : ℚ := 0
deriving DecidableEq, Repr

/-- Mirrors `models.Itinerary` (the generation timestamp and the echoed
user-preferences field are omitted; neither is computed from the inputs in a
way any claim concerns). -/
structure Itinerary where
  day_plans : List DayPlan
  total_cost : ℚ
  cost_breakdown : CostBreakdown
  accessibility_score : ℚ
deriving DecidableEq, Repr

/-! ### The SQL WHERE clause of `VenueService.search_venues`

`search_venues` runs one SELECT over the venues table; we model the table as
a list of venues (the catalog) and the WHERE clause as a boolean predicate.
Python truthiness tests (`if criteria.max_cost:`, `if criteria.accessibility_required:`,
`if criteria.dietary_required:`) are kept: `max_cost` adds no condition when
it is `None` **or `0`**, and the list-valued guards fire only on non-empty
lists. -/

/-- The category clause: `category IN (...)` is added only when
`criteria.categories` is non-empty. -/
def sqlCategoryOk (c : SearchCriteria) (v : Venue) : Bool :=
  if c.categories.isEmpty then true else c.categories.contains v.category

/-- The cost clause: `cost_min <= ?` is added only when `criteria.max_cost`
is truthy (not `None` and not `0`). -/
def sqlCostOk (c : SearchCriteria) (v : Venue) : Bool :=
  match c.max_cost with
  | none => true
  | some m => if m = 0 then true else decide (v.cost_range.1 ≤ m)

/-- The accessibility clauses, guarded by `if criteria.accessibility_required:`. -/
def sqlAccessOk (c : SearchCriteria) (v : Venue) : Bool :=
  if c.accessibility_required.isEmpty then true else
    (!(decide ("wheelchair" ∈ c.accessibility_required)) || v.accessibility.wheelchair_accessible) &&
    (!(decide ("elevator_only" ∈ c.accessibility_required)) || v.accessibility.has_elevator) &&
    (!(decide ("avoid_stairs" ∈ c.accessibility_required)) || v.accessibility.step_free_access)

/-- The dietary clauses: inside the `if criteria.dietary_required:` guard the
code collects the conditions for `soft_meals`, `vegetarian` and `halal` and,
when any were collected, requires
`category != 'restaurant' OR (cond1 OR cond2 OR ...)`. -/
def sqlDietaryOk (c : SearchCriteria) (v : Venue) : Bool :=
  if c.dietary_required.isEmpty then true else
    if decide ("soft_meals" ∈ c.dietary_required) ||
        decide ("vegetarian" ∈ c.dietary_required) ||
        decide ("halal" ∈ c.dietary_required) then
      !(v.category = VenueCategory.restaurant) ||
        ((decide ("soft_meals" ∈ c.dietary_required) && v.dietary_options.soft_meals) ||
         (decide ("vegetarian" ∈ c.dietary_required) && v.dietary_options.vegetarian) ||
         (decide ("halal" ∈ c.dietary_required) && v.dietary_options.halal))
    else true

/-- The weather clause: equality with the requested tag (a `WeatherSuitability`
enum value is always truthy in Python). -/
def sqlWeatherOk (c : SearchCriteria) (v : Venue) : Bool :=
  match c.weather_suitability with
  | none => true
  | some w => decide (v.weather_suitability = w)

/-- The district clause. -/
def sqlDistrictOk (c : SearchCriteria) (_v : Venue) : Bool :=
  match c.district with
  | none => true
  | some _ => false    -- districts are not modelled; the engine never sets one

/-- The full WHERE clause of `search_venues`. -/
def sqlMatches (c : SearchCriteria) (v : Venue) : Bool :=
  sqlCategoryOk c v && sqlCostOk c v && sqlAccessOk c v &&
    sqlDietaryOk c v && sqlWeatherOk c v && sqlDistrictOk c v

/-- Mirrors `VenueService.search_venues` over an explicit catalog. -/
def searchVenues (c : SearchCriteria) (catalog : List Venue) : List Venue :=
  catalog.filter (sqlMatches c)

/-! ### `ItineraryEngine` -/

/-- Mirrors `ItineraryEngine.max_venues_per_day`. -/
def maxVenuesPerDay : Nat := 3

/-- The `SearchCriteria` built by `ItineraryEngine._get_suitable_venues`. -/
def buildCriteria (p : UserPreferences) (w : WeatherData) : SearchCriteria :=
  { accessibility_required :=
      if p.requires_accessibility then p.mobility_needs else []
    dietary_required :=
      if p.dietary_restrictions.isEmpty then [] else p.dietary_restrictions
    max_cost := some p.budget_range.2
    weather_suitability :=
      if w.is_suitable_for_outdoor then none else some WeatherSuitability.indoor }

/-- Mirrors `ItineraryEngine._is_venue_suitable`: the sequence of guarded
`return False` checks of the Python method. -/
def isVenueSuitable (v : Venue) (p : UserPreferences) (w : WeatherData) : Bool :=
  if p.requires_accessibility &&
      ((decide ("wheelchair" ∈ p.mobility_needs) && !v.accessibility.wheelchair_accessible) ||
       (decide ("elevator_only" ∈ p.mobility_needs) && !v.accessibility.has_elevator) ||
       (decide ("avoid_stairs" ∈ p.mobility_needs) && !v.accessibility.step_free_access)) then
    false
  else if !p.dietary_restrictions.isEmpty &&
      ((decide ("soft_meals" ∈ p.dietary_restrictions) &&
          v.category = VenueCategory.restaurant && !v.dietary_options.soft_meals) ||
       (decide ("vegetarian" ∈ p.dietary_restrictions) &&
          v.category = VenueCategory.restaurant && !v.dietary_options.vegetarian)) then
    false
  else if p.budget_range.2 < v.cost_range.1 then
    false
  else if !w.is_suitable_for_outdoor &&
      v.weather_suitability = WeatherSuitability.outdoor then
    false
  else if p.has_seniors && decide (3 < v.accessibility.difficulty_level) then
    false
  else
    true

/-- Mirrors `ItineraryEngine._get_suitable_venues`: `search_venues` on the criteria
built from the preferences, then the extra `_is_venue_suitable` pass. -/
def getSuitableVenues (p : UserPreferences) (w : WeatherData)
    (catalog : List Venue) : List Venue :=
  (searchVenues (buildCriteria p w) catalog).filter (fun v => isVenueSuitable v p w)

/-! ### Daily selection

`_select_daily_venues` calls the global `random.choice` (one element of a
non-empty list) and `random.sample` (a given number of distinct positions of
a list).  They are modelled as the explicit parameters `choice` and `sample`;
a theorem quantified over all `choice`/`sample` satisfying the properties
every run of the Python functions has (membership, result size, distinctness)
covers every outcome of the random source. -/

/-- The weather-biased experience pick inside `_select_daily_venues`: in good
weather prefer outdoor/mixed venues, otherwise indoor ones, falling back to
all experience candidates when the preferred subset is empty; sample sized to
the remaining slot count. -/
def pickExperiences (sample : List Venue → Nat → List Venue)
    (attractions : List Venue) (remaining : Nat) (w : WeatherData) : List Venue :=
  if w.is_suitable_for_outdoor then
    if (attractions.filter (fun v =>
        v.weather_suitability = WeatherSuitability.outdoor ∨
          v.weather_suitability = WeatherSuitability.mixed)).isEmpty then
      sample attractions (min remaining attractions.length)
    else
      sample
        (attractions.filter (fun v =>
          v.weather_suitability = WeatherSuitability.outdoor ∨
            v.weather_suitability = WeatherSuitability.mixed))
        (min remaining (attractions.filter (fun v =>
          v.weather_suitability = WeatherSuitability.outdoor ∨
            v.weather_suitability = WeatherSuitability.mixed)).length)
  else
    if (attractions.filter (fun v =>
        v.weather_suitability = WeatherSuitability.indoor)).isEmpty then
      sample attractions (min remaining attractions.length)
    else
      sample
        (attractions.filter (fun v =>
          v.weather_suitability = WeatherSuitability.indoor))
        (min remaining (attractions.filter (fun v =>
          v.weather_suitability = WeatherSuitability.indoor)).length)

/-- The "experience" categorization of `_select_daily_venues`
(`attraction`, `museum`, `park`; transport and shopping are never primary
stops). -/
def isExperienceCategory (v : Venue) : Bool :=
  decide (v.category = VenueCategory.attraction ∨ v.category = VenueCategory.museum ∨
    v.category = VenueCategory.park)

/-- The restaurant categorization of `_select_daily_venues`. -/
def isRestaurantCategory (v : Venue) : Bool :=
  decide (v.category = VenueCategory.restaurant)

/-- The "always include at least one meal" block of `_select_daily_venues`:
one uniformly-random restaurant, preferring discount-flagged ones when the
group has a senior or a child. -/
def mealPick (choice : List Venue → Venue) (restaurants : List Venue)
    (p : UserPreferences) : List Venue :=
  if restaurants.isEmpty then [] else
    if p.has_seniors || p.has_children then
      if (restaurants.filter (fun r => r.elderly_discount || r.child_discount)).isEmpty then
        [choice restaurants]
      else
        [choice (restaurants.filter (fun r => r.elderly_discount || r.child_discount))]
    else [choice restaurants]

/-- Mirrors `ItineraryEngine._select_daily_venues`. -/
def selectDailyVenues (choice : List Venue → Venue)
    (sample : List Venue → Nat → List Venue)
    (venues : List Venue) (p : UserPreferences) (w : WeatherData) : List Venue :=
  if venues.isEmpty then [] else
    let attractions := venues.filter isExperienceCategory
    let restaurants := venues.filter isRestaurantCategory
    let selected := mealPick choice restaurants p
    let remaining := maxVenuesPerDay - selected.length
    let extra :=
      if !attractions.isEmpty && decide (0 < remaining) then
        pickExperiences sample attractions remaining w
      else []
    (selected ++ extra).take maxVenuesPerDay

/-! ### Transportation, costs, notes -/

/-- One synthesized segment of `_generate_transportation`: mode choice is
`if 'mtr' in preference ... elif 'taxi' in preference ... else bus`. -/
def transportSegmentFor (p : UserPreferences) (origin destination : String) :
    TransportSegment :=
  if "mtr" ∈ p.transportation_preference then
    { origin := origin, destination := destination, mode := "mtr",
      duration_minutes := 20, cost := 15 }
  else if "taxi" ∈ p.transportation_preference then
    { origin := origin, destination := destination, mode := "taxi",
      duration_minutes := 15, cost := 50 }
  else
    { origin := origin, destination := destination, mode := "bus",
      duration_minutes := 25, cost := 8 }

/-- Mirrors `ItineraryEngine._generate_transportation`: one segment per consecutive
venue pair (`for i in range(len(venues) - 1)`). -/
def generateTransportation (venues : List Venue) (p : UserPreferences) :
    List TransportSegment :=
  (venues.zip venues.tail).map (fun ab => transportSegmentFor p ab.1.name ab.2.name)

/-- The discounted per-group cost of one venue inside
`_calculate_day_cost`: average of the cost range, times 0.8 when a senior
discount applies, times 0.9 when a child discount applies, times the group
size. -/
def venueDayCost (p : UserPreferences) (v : Venue) : ℚ :=
  let base : ℚ := ((v.cost_range.1 : ℚ) + (v.cost_range.2 : ℚ)) / 2
  let base := if p.has_seniors && v.elderly_discount then base * (8 / 10) else base
  let base := if p.has_children && v.child_discount then base * (9 / 10) else base
  base * (p.total_people : ℚ)

/-- Mirrors `ItineraryEngine._calculate_day_cost`. -/
def calculateDayCost (venues : List Venue) (transportation : List TransportSegment)
    (p : UserPreferences) : ℚ :=
  (venues.map (venueDayCost p)).sum +
    (transportation.map (fun s => s.cost * (p.total_people : ℚ))).sum

/-- Mirrors `ItineraryEngine._calculate_walking_distance`. -/
def calculateWalkingDistance (venues : List Venue) : ℚ :=
  if venues.length ≤ 1 then 0
  else ((venues.length : ℚ) - 1) * (5 / 10) + (venues.length : ℚ) * (3 / 10)

/-- Mirrors `ItineraryEngine._generate_accessibility_notes`. -/
def generateAccessibilityNotes (venues : List Venue) (p : UserPreferences) :
    List String :=
  if p.requires_accessibility then
    let n := venues.length
    let wc := (venues.filter (fun v => v.accessibility.wheelchair_accessible)).length
    let el := (venues.filter (fun v => v.accessibility.has_elevator)).length
    let base := [toString wc ++ "/" ++ toString n ++ " venues are wheelchair accessible",
                 toString el ++ "/" ++ toString n ++ " venues have elevators"]
    -- the Python guard `any('rest_frequent' in needs for _ in [1])` is just a
    -- membership test on the mobility needs
    if "rest_frequent" ∈ p.mobility_needs then
      let ra := (venues.filter (fun v => v.accessibility.rest_areas)).length
      base ++ [toString ra ++ "/" ++ toString n ++ " venues have rest areas"]
    else base
  else []

/-- Mirrors `ItineraryEngine._generate_weather_notes`. -/
def generateWeatherNotes (w : WeatherData) : List String :=
  (if 50 < w.rainfall_probability then
     ["High chance of rain - indoor activities recommended"] else []) ++
  (if 30 < w.temperature then
     ["Hot weather - stay hydrated and take breaks in air conditioning"]
   else if w.temperature < 18 then
     ["Cool weather - dress warmly for outdoor activities"] else []) ++
  (if 80 < w.humidity then ["High humidity - take frequent breaks"] else [])

/-! ### Day plans and the full generation loop -/

/-- Mirrors `ItineraryEngine._generate_day_plan`; returns the plan together with the
updated `used_venues` set (modelled as a list of ids whose membership is what
matters). -/
def generateDayPlan (choice : List Venue → Venue)
    (sample : List Venue → Nat → List Venue) (day : Nat) (p : UserPreferences)
    (w : WeatherData) (available : List Venue) (used : List String) :
    DayPlan × List String :=
  let dayVenues := available.filter (fun v => !(used.contains v.id))
  let dayVenues := if dayVenues.isEmpty then available else dayVenues
  let selected := selectDailyVenues choice sample dayVenues p w
  let used := used ++ selected.map (fun v => v.id)
  let transportation := generateTransportation selected p
  ({ day := day
     venues := selected
     transportation := transportation
     estimated_cost := calculateDayCost selected transportation p
     total_walking_distance := calculateWalkingDistance selected
     accessibility_notes := generateAccessibilityNotes selected p
     weather_considerations := generateWeatherNotes w }, used)

/-- Mirrors `ItineraryEngine._calculate_total_cost`: note that, unlike
`_calculate_day_cost`, it sums the **undiscounted** average venue cost. -/
def calculateTotalCost (dayPlans : List DayPlan) (p : UserPreferences) :
    ℚ × CostBreakdown :=
  let totalAttractions :=
    (dayPlans.map (fun d =>
      ((d.venues.filter (fun v => !(v.category = VenueCategory.restaurant))).map
        (fun v => ((v.cost_range.1 : ℚ) + (v.cost_range.2 : ℚ)) / 2 * (p.total_people : ℚ))).sum)).sum
  let totalMeals :=
    (dayPlans.map (fun d =>
      ((d.venues.filter (fun v => v.category = VenueCategory.restaurant)).map
        (fun v => ((v.cost_range.1 : ℚ) + (v.cost_range.2 : ℚ)) / 2 * (p.total_people : ℚ))).sum)).sum
  let totalTransport :=
    (dayPlans.map (fun d =>
      (d.transportation.map (fun s => s.cost * (p.total_people : ℚ))).sum)).sum
  let total := totalAttractions + totalMeals + totalTransport
  (total,
   { attractions := totalAttractions
     meals := totalMeals
     transportation := totalTransport
     total := total
     cost_per_person := total / (p.total_people : ℚ) })

/-- Python's `round(x, 1)`; on rationals we use `round (10 * x) / 10`
(ties differ from Python's bankers rounding only at exact multiples of
`0.05`, which no claim depends on). -/
def round1 (q : ℚ) : ℚ := ((round (q * 10) : ℤ) : ℚ) / 10

/-- Mirrors `ItineraryEngine._calculate_accessibility_score`. -/
def calculateAccessibilityScore (dayPlans : List DayPlan)
    (p : UserPreferences) : ℚ :=
  if !p.requires_accessibility then 5
  else
    let totalVenues := (dayPlans.map (fun d => d.venues.length)).sum
    if totalVenues = 0 then 1
    else
      let venuePoints : Venue → Nat := fun v =>
        (if v.accessibility.wheelchair_accessible then 1 else 0) +
        (if v.accessibility.has_elevator then 1 else 0) +
        (if v.accessibility.accessible_toilets then 1 else 0) +
        (if v.accessibility.step_free_access then 1 else 0) +
        (if v.accessibility.rest_areas then 1 else 0)
      let pts := (dayPlans.map (fun d => (d.venues.map venuePoints).sum)).sum
      round1 (((pts : ℚ) / ((totalVenues : ℚ) * 5)) * 5)

/-- One iteration of the day loop in `generate_itinerary`: build the plan
for day `i + 1` and thread the accumulated plans and the used-venues set. -/
def dayStep (choice : Nat → List Venue → Venue)
    (sample : Nat → List Venue → Nat → List Venue)
    (p : UserPreferences) (w : WeatherData) (suitable : List Venue)
    (acc : List DayPlan × List String) (i : Nat) : List DayPlan × List String :=
  let day := i + 1
  let r := generateDayPlan (choice day) (sample day) day p w suitable acc.2
  (acc.1 ++ [r.1], r.2)

/-- The day loop of `generate_itinerary`
(`for day in range(1, trip_duration + 1)`), threading the `used_venues`
set across days, starting from no plans and no used venues. -/
def tripDayPlans (choice : Nat → List Venue → Venue)
    (sample : Nat → List Venue → Nat → List Venue)
    (p : UserPreferences) (w : WeatherData) (catalog : List Venue) : List DayPlan :=
  ((List.range p.trip_duration).foldl
    (dayStep choice sample p w (getSuitableVenues p w catalog)) ([], [])).1

/-- Mirrors `ItineraryEngine.generate_itinerary`.  The random source is day-indexed
so that different days may draw differently.  The Python
`raise Exception(...)` is an `Except.error`. -/
def generateItinerary (choice : Nat → List Venue → Venue)
    (sample : Nat → List Venue → Nat → List Venue)
    (p : UserPreferences) (w : WeatherData) (catalog : List Venue) :
    Except String Itinerary :=
  if (getSuitableVenues p w catalog).isEmpty then
    Except.error "No suitable venues found for your requirements"
  else
    let dayPlans := tripDayPlans choice sample p w catalog
    let costs := calculateTotalCost dayPlans p
    Except.ok
      { day_plans := dayPlans
        total_cost := costs.1
        cost_breakdown := costs.2
        accessibility_score := calculateAccessibilityScore dayPlans p }

/-! ### Concrete random sources used by witnesses -/

/-- A deterministic admissible `choice`: the head of the list. -/
def headChoice : List Venue → Venue := fun l => l.headD default

/-- A deterministic admissible `sample`: the first `k` elements. -/
def takeSample : List Venue → Nat → List Venue := fun l k => l.take k

/-- Day-indexed version of `headChoice`. -/
def headChoiceD : Nat → List Venue → Venue := fun _ => headChoice

/-- Day-indexed version of `takeSample`. -/
def takeSampleD : Nat → List Venue → Nat → List Venue := fun _ => takeSample

/-! ### The spec's §4.1 inclusion rule and the rule the code implements -/

/-- The inclusion rule exactly as §4.1 of the spec words it: the conjunction
of the eight listed conditions (in particular, in bad weather only the
`outdoor` tag is excluded, and no dietary tag other than `soft_meals` /
`vegetarian` plays any role). -/
def specInclusion (v : Venue) (p : UserPreferences) (w : WeatherData) : Prop :=
  ("wheelchair" ∈ p.mobility_needs → v.accessibility.wheelchair_accessible = true) ∧
  ("elevator_only" ∈ p.mobility_needs → v.accessibility.has_elevator = true) ∧
  ("avoid_stairs" ∈ p.mobility_needs → v.accessibility.step_free_access = true) ∧
  ("soft_meals" ∈ p.dietary_restrictions → v.category = VenueCategory.restaurant →
    v.dietary_options.soft_meals = true) ∧
  ("vegetarian" ∈ p.dietary_restrictions → v.category = VenueCategory.restaurant →
    v.dietary_options.vegetarian = true) ∧
  v.cost_range.1 ≤ p.budget_range.2 ∧
  (w.is_suitable_for_outdoor = false → v.weather_suitability ≠ WeatherSuitability.outdoor) ∧
  (0 < p.seniors → v.accessibility.difficulty_level ≤ 3)

/-- The inclusion rule the composed code (`search_venues` + `_is_venue_suitable`)
actually enforces.  It differs from §4.1 in two places: in bad weather only
`indoor` venues pass (`mixed` is excluded by the SQL equality filter), and
when any of `soft_meals` / `vegetarian` / `halal` is requested a restaurant
must additionally offer at least one of the requested options (the SQL
OR-prefilter), so a lone `halal` restriction excludes non-halal restaurants. -/
def codeInclusion (v : Venue) (p : UserPreferences) (w : WeatherData) : Prop :=
  ("wheelchair" ∈ p.mobility_needs → v.accessibility.wheelchair_accessible = true) ∧
  ("elevator_only" ∈ p.mobility_needs → v.accessibility.has_elevator = true) ∧
  ("avoid_stairs" ∈ p.mobility_needs → v.accessibility.step_free_access = true) ∧
  ("soft_meals" ∈ p.dietary_restrictions → v.category = VenueCategory.restaurant →
    v.dietary_options.soft_meals = true) ∧
  ("vegetarian" ∈ p.dietary_restrictions → v.category = VenueCategory.restaurant →
    v.dietary_options.vegetarian = true) ∧
  (("soft_meals" ∈ p.dietary_restrictions ∨ "vegetarian" ∈ p.dietary_restrictions ∨
      "halal" ∈ p.dietary_restrictions) → v.category = VenueCategory.restaurant →
    (("soft_meals" ∈ p.dietary_restrictions ∧ v.dietary_options.soft_meals = true) ∨
     ("vegetarian" ∈ p.dietary_restrictions ∧ v.dietary_options.vegetarian = true) ∨
     ("halal" ∈ p.dietary_restrictions ∧ v.dietary_options.halal = true))) ∧
  v.cost_range.1 ≤ p.budget_range.2 ∧
  (w.is_suitable_for_outdoor = false → v.weather_suitability = WeatherSuitability.indoor) ∧
  (0 < p.seniors → v.accessibility.difficulty_level ≤ 3)

instance specInclusion.instDecidable (v : Venue) (p : UserPreferences) (w : WeatherData) :
    Decidable (specInclusion v p w) := by
  unfold specInclusion
  exact inferInstance

set_option synthInstance.maxSize 1024 in
instance codeInclusion.instDecidable (v : Venue) (p : UserPreferences) (w : WeatherData) :
    Decidable (codeInclusion v p w) := by
  unfold codeInclusion
  exact inferInstance

instance {ε α : Type} [DecidableEq ε] [DecidableEq α] : DecidableEq (Except ε α) := fun a b =>
  match a, b with
  | Except.error e1, Except.error e2 =>
      if h : e1 = e2 then isTrue (by rw [h]) else
        isFalse (fun hh => by cases hh; exact h rfl)
  | Except.ok v1, Except.ok v2 =>
      if h : v1 = v2 then isTrue (by rw [h]) else
        isFalse (fun hh => by cases hh; exact h rfl)
  | Except.error _, Except.ok _ => isFalse (fun hh => by cases hh)
  | Except.ok _, Except.error _ => isFalse (fun hh => by cases hh)

/-! ### Concrete fixtures used by counterexamples and witnesses -/

/-- A pleasant-weather reading (outdoor-suitable). -/
def goodWeather : WeatherData :=
  { temperature := 25, humidity := 50, rainfall_probability := 10 }

/-- A rainy reading with `is_suitable_for_outdoor = false`. -/
def badWeather : WeatherData :=
  { temperature := 25, humidity := 50, rainfall_probability := 90,
    is_suitable_for_outdoor := false }

/-- A free park tagged `mixed`, satisfying every §4.1 condition under any
preferences without needs. -/
def mixedPark : Venue :=
  { id := "m", name := "Mixed Park", category := VenueCategory.park,
    cost_range := (0, 0), weather_suitability := WeatherSuitability.mixed }

/-- One adult, no needs, budget ceiling 100. -/
def basicPrefs : UserPreferences :=
  { adults := 1, budget_range := (0, 100), transportation_preference := ["mtr"] }

/-- A restaurant with no halal options (all dietary flags false). -/
def plainDiner : Venue :=
  { id := "h", name := "Plain Diner", category := VenueCategory.restaurant,
    cost_range := (0, 0) }

/-- One adult requesting only `halal`. -/
def halalPrefs : UserPreferences :=
  { adults := 1, dietary_restrictions := ["halal"], budget_range := (0, 100) }

/-- A restaurant offering soft meals but not halal. -/
def softDiner : Venue :=
  { id := "s", name := "Soft Diner", category := VenueCategory.restaurant,
    cost_range := (0, 0), dietary_options := { soft_meals := true } }

/-- One adult requesting `soft_meals` and `halal`. -/
def softHalalPrefs : UserPreferences :=
  { adults := 1, dietary_restrictions := ["soft_meals", "halal"],
    budget_range := (0, 100) }

/-- A restaurant with a senior discount, average cost 100. -/
def discountDiner : Venue :=
  { id := "r", name := "Discount Diner", category := VenueCategory.restaurant,
    cost_range := (100, 100), elderly_discount := true }

/-- One adult and one senior, one-day trip. -/
def seniorPrefs : UserPreferences :=
  { adults := 1, seniors := 1, budget_range := (0, 500), trip_duration := 1,
    transportation_preference := ["mtr"] }

/-- A park with every accessibility facility flag false. -/
def bareParkVenue : Venue :=
  { id := "q", name := "Bare Park", category := VenueCategory.park,
    cost_range := (0, 0) }

/-- One adult whose mobility needs contain only `rest_frequent` (this makes
`requires_accessibility()` true but adds no filter condition). -/
def restNeedPrefs : UserPreferences :=
  { adults := 1, mobility_needs := ["rest_frequent"], budget_range := (0, 100),
    trip_duration := 1, transportation_preference := ["mtr"] }

/-- Preferences violating all three §7 validation rules at once:
`budget_range` has min > max, `trip_duration` is 0 (< 1) and
`transportation_preference` is empty. -/
def invalidPrefs : UserPreferences :=
  { adults := 1, budget_range := (500, 100), trip_duration := 0,
    transportation_preference := [] }

/-- The itinerary generated for the one-day senior trip. -/
def seniorItin : Itinerary :=
  { day_plans := tripDayPlans headChoiceD takeSampleD seniorPrefs goodWeather [discountDiner]
    total_cost := (calculateTotalCost
      (tripDayPlans headChoiceD takeSampleD seniorPrefs goodWeather [discountDiner])
      seniorPrefs).1
    cost_breakdown := (calculateTotalCost
      (tripDayPlans headChoiceD takeSampleD seniorPrefs goodWeather [discountDiner])
      seniorPrefs).2
    accessibility_score := calculateAccessibilityScore
      (tripDayPlans headChoiceD takeSampleD seniorPrefs goodWeather [discountDiner])
      seniorPrefs }

/-- One adult preferring only `walking`. -/
def walkPrefs : UserPreferences :=
  { adults := 1, budget_range := (0, 100), transportation_preference := ["walking"] }

/-! ### Characterization of the composed Constraint Filter -/

lemma buildCriteria_access (p : UserPreferences) (w : WeatherData) :
    (buildCriteria p w).accessibility_required = p.mobility_needs := by
  simp only [buildCriteria]
  split_ifs with h
  · rfl
  · simp only [UserPreferences.requires_accessibility, decide_eq_true_eq, Nat.pos_iff_ne_zero,
      ne_eq, not_not] at h
    exact (List.eq_nil_of_length_eq_zero h).symm

lemma buildCriteria_dietary (p : UserPreferences) (w : WeatherData) :
    (buildCriteria p w).dietary_required = p.dietary_restrictions := by
  simp only [buildCriteria]
  split_ifs with h
  · exact (List.isEmpty_iff.mp h).symm
  · rfl

lemma sqlMatches_iff (p : UserPreferences) (w : WeatherData) (v : Venue) :
    sqlMatches (buildCriteria p w) v = true ↔
      (("wheelchair" ∈ p.mobility_needs → v.accessibility.wheelchair_accessible = true) ∧
       ("elevator_only" ∈ p.mobility_needs → v.accessibility.has_elevator = true) ∧
       ("avoid_stairs" ∈ p.mobility_needs → v.accessibility.step_free_access = true) ∧
       (("soft_meals" ∈ p.dietary_restrictions ∨ "vegetarian" ∈ p.dietary_restrictions ∨
           "halal" ∈ p.dietary_restrictions) → v.category = VenueCategory.restaurant →
         (("soft_meals" ∈ p.dietary_restrictions ∧ v.dietary_options.soft_meals = true) ∨
          ("vegetarian" ∈ p.dietary_restrictions ∧ v.dietary_options.vegetarian = true) ∨
          ("halal" ∈ p.dietary_restrictions ∧ v.dietary_options.halal = true))) ∧
       (p.budget_range.2 = 0 ∨ v.cost_range.1 ≤ p.budget_range.2) ∧
       (w.is_suitable_for_outdoor = false →
         v.weather_suitability = WeatherSuitability.indoor)) := by
  have haccess : sqlAccessOk (buildCriteria p w) v = true ↔
      (("wheelchair" ∈ p.mobility_needs → v.accessibility.wheelchair_accessible = true) ∧
       ("elevator_only" ∈ p.mobility_needs → v.accessibility.has_elevator = true) ∧
       ("avoid_stairs" ∈ p.mobility_needs → v.accessibility.step_free_access = true)) := by
    rw [sqlAccessOk, buildCriteria_access]
    split_ifs with h
    · rw [List.isEmpty_iff] at h
      simp [h]
    · simp only [Bool.and_eq_true, Bool.or_eq_true, Bool.not_eq_true',
        decide_eq_false_iff_not]
      constructor
      · intro hx
        exact ⟨fun hm => (hx.1.1.resolve_left (not_not_intro hm)),
               fun hm => (hx.1.2.resolve_left (not_not_intro hm)),
               fun hm => (hx.2.resolve_left (not_not_intro hm))⟩
      · intro hx
        refine ⟨⟨?_, ?_⟩, ?_⟩ <;> rw [or_iff_not_imp_left, not_not]
        · exact hx.1
        · exact hx.2.1
        · exact hx.2.2
  have hdietary : sqlDietaryOk (buildCriteria p w) v = true ↔
      (("soft_meals" ∈ p.dietary_restrictions ∨ "vegetarian" ∈ p.dietary_restrictions ∨
          "halal" ∈ p.dietary_restrictions) → v.category = VenueCategory.restaurant →
        (("soft_meals" ∈ p.dietary_restrictions ∧ v.dietary_options.soft_meals = true) ∨
         ("vegetarian" ∈ p.dietary_restrictions ∧ v.dietary_options.vegetarian = true) ∨
         ("halal" ∈ p.dietary_restrictions ∧ v.dietary_options.halal = true))) := by
    rw [sqlDietaryOk, buildCriteria_dietary]
    split_ifs with h h2
    · rw [List.isEmpty_iff] at h
      simp [h]
    · simp only [Bool.or_eq_true, decide_eq_true_eq] at h2
      simp only [Bool.or_eq_true, Bool.and_eq_true, Bool.not_eq_true', decide_eq_true_eq,
        decide_eq_false_iff_not]
      constructor
      · rintro (hnr | hopt)
        · exact fun _ hr => absurd hr hnr
        · exact fun _ _ => or_assoc.mp hopt
      · intro himp
        by_cases hr : v.category = VenueCategory.restaurant
        · exact Or.inr (or_assoc.mpr (himp (or_assoc.mp h2) hr))
        · exact Or.inl hr
    · simp only [Bool.or_eq_true, decide_eq_true_eq] at h2
      push_neg at h2
      obtain ⟨⟨hs1, hv1⟩, hh1⟩ := h2
      simp [hs1, hv1, hh1]
  have hcost : sqlCostOk (buildCriteria p w) v = true ↔
      (p.budget_range.2 = 0 ∨ v.cost_range.1 ≤ p.budget_range.2) := by
    rw [sqlCostOk]
    simp only [buildCriteria]
    split_ifs with h
    · simp [h]
    · simp [h]
  have hweather : sqlWeatherOk (buildCriteria p w) v = true ↔
      (w.is_suitable_for_outdoor = false →
        v.weather_suitability = WeatherSuitability.indoor) := by
    rw [sqlWeatherOk]
    simp only [buildCriteria]
    by_cases h : w.is_suitable_for_outdoor <;> simp [h]
  rw [sqlMatches]
  simp only [Bool.and_eq_true]
  rw [haccess, hdietary, hcost, hweather]
  have hcat : sqlCategoryOk (buildCriteria p w) v = true := by rfl
  have hdist : sqlDistrictOk (buildCriteria p w) v = true := by rfl
  simp only [hcat, hdist, true_and, and_true]
  constructor
  · rintro ⟨⟨⟨hc', ⟨ha1, ha2, ha3⟩⟩, hd'⟩, hw'⟩
    exact ⟨ha1, ha2, ha3, hd', hc', hw'⟩
  · rintro ⟨ha1, ha2, ha3, hd', hc', hw'⟩
    exact ⟨⟨⟨hc', ⟨ha1, ha2, ha3⟩⟩, hd'⟩, hw'⟩

lemma ite_false_left (b x : Bool) : (if b then false else x) = (!b && x) := by
  cases b <;> simp

lemma pite_false_left (P : Prop) [Decidable P] (x : Bool) :
    (if P then false else x) = (!(decide P) && x) := by
  split_ifs with h <;> simp [h]

lemma requires_of_mem {p : UserPreferences} {a : String} (h : a ∈ p.mobility_needs) :
    p.requires_accessibility = true := by
  simp [UserPreferences.requires_accessibility, List.length_pos_of_mem h]

lemma has_seniors_iff {p : UserPreferences} : p.has_seniors = true ↔ 0 < p.seniors := by
  simp [UserPreferences.has_seniors]

lemma isVenueSuitable_iff (p : UserPreferences) (w : WeatherData) (v : Venue) :
    isVenueSuitable v p w = true ↔
      (("wheelchair" ∈ p.mobility_needs → v.accessibility.wheelchair_accessible = true) ∧
       ("elevator_only" ∈ p.mobility_needs → v.accessibility.has_elevator = true) ∧
       ("avoid_stairs" ∈ p.mobility_needs → v.accessibility.step_free_access = true) ∧
       ("soft_meals" ∈ p.dietary_restrictions → v.category = VenueCategory.restaurant →
         v.dietary_options.soft_meals = true) ∧
       ("vegetarian" ∈ p.dietary_restrictions → v.category = VenueCategory.restaurant →
         v.dietary_options.vegetarian = true) ∧
       v.cost_range.1 ≤ p.budget_range.2 ∧
       (w.is_suitable_for_outdoor = false →
         v.weather_suitability ≠ WeatherSuitability.outdoor) ∧
       (0 < p.seniors → v.accessibility.difficulty_level ≤ 3)) := by
  rw [isVenueSuitable, ite_false_left, ite_false_left, pite_false_left, ite_false_left,
    ite_false_left]
  simp only [Bool.and_eq_true, Bool.not_eq_true', and_true]
  simp only [Bool.and_eq_false_iff, Bool.or_eq_false_iff, Bool.not_eq_false',
    decide_eq_false_iff_not, decide_eq_true_eq, Bool.not_eq_true', Bool.not_eq_false]
  constructor
  · rintro ⟨ha, hd, hc, hw, hs⟩
    refine ⟨?_, ?_, ?_, ?_, ?_, not_lt.mp hc, ?_, ?_⟩
    · intro hm
      rcases ha with hreq | ⟨⟨h1, _⟩, _⟩
      · exact absurd (requires_of_mem hm) (by simp [hreq])
      · exact h1.resolve_left (not_not_intro hm)
    · intro hm
      rcases ha with hreq | ⟨⟨_, h2⟩, _⟩
      · exact absurd (requires_of_mem hm) (by simp [hreq])
      · exact h2.resolve_left (not_not_intro hm)
    · intro hm
      rcases ha with hreq | ⟨_, h3⟩
      · exact absurd (requires_of_mem hm) (by simp [hreq])
      · exact h3.resolve_left (not_not_intro hm)
    · intro hm hr
      rcases hd with hempty | ⟨h4, _⟩
      · exact absurd (List.isEmpty_iff.mp hempty) (List.ne_nil_of_mem hm)
      · rcases h4 with (hnm | hnr) | hok
        · exact absurd hm hnm
        · exact absurd hr hnr
        · exact hok
    · intro hm hr
      rcases hd with hempty | ⟨_, h5⟩
      · exact absurd (List.isEmpty_iff.mp hempty) (List.ne_nil_of_mem hm)
      · rcases h5 with (hnm | hnr) | hok
        · exact absurd hm hnm
        · exact absurd hr hnr
        · exact hok
    · intro hbad
      rcases hw with hgood | hno
      · rw [hbad] at hgood
        exact absurd hgood (by simp)
      · exact hno
    · intro h0
      rcases hs with hsen | hdl
      · exact absurd (has_seniors_iff.mpr h0) (by simp [hsen])
      · exact not_lt.mp hdl
  · rintro ⟨x1, x2, x3, x4, x5, x6, x7, x8⟩
    refine ⟨?_, ?_, not_lt.mpr x6, ?_, ?_⟩
    · refine Or.inr ⟨⟨?_, ?_⟩, ?_⟩
      · by_cases hm : "wheelchair" ∈ p.mobility_needs
        · exact Or.inr (x1 hm)
        · exact Or.inl hm
      · by_cases hm : "elevator_only" ∈ p.mobility_needs
        · exact Or.inr (x2 hm)
        · exact Or.inl hm
      · by_cases hm : "avoid_stairs" ∈ p.mobility_needs
        · exact Or.inr (x3 hm)
        · exact Or.inl hm
    · refine Or.inr ⟨?_, ?_⟩
      · by_cases hm : "soft_meals" ∈ p.dietary_restrictions
        · by_cases hr : v.category = VenueCategory.restaurant
          · exact Or.inr (x4 hm hr)
          · exact Or.inl (Or.inr hr)
        · exact Or.inl (Or.inl hm)
      · by_cases hm : "vegetarian" ∈ p.dietary_restrictions
        · by_cases hr : v.category = VenueCategory.restaurant
          · exact Or.inr (x5 hm hr)
          · exact Or.inl (Or.inr hr)
        · exact Or.inl (Or.inl hm)
    · cases hgw : w.is_suitable_for_outdoor
      · exact Or.inr (x7 hgw)
      · exact Or.inl rfl
    · cases hsen : p.has_seniors
      · exact Or.inl rfl
      · exact Or.inr (not_lt.mpr (x8 (has_seniors_iff.mp hsen)))

/-- Membership in the composed Constraint Filter output is exactly
membership in the catalog plus `codeInclusion`. -/
lemma mem_getSuitableVenues (catalog : List Venue) (p : UserPreferences)
    (w : WeatherData) (v : Venue) :
    v ∈ getSuitableVenues p w catalog ↔ (v ∈ catalog ∧ codeInclusion v p w) := by
  rw [getSuitableVenues, searchVenues]
  simp only [List.mem_filter]
  rw [sqlMatches_iff, isVenueSuitable_iff, codeInclusion]
  constructor
  · rintro ⟨⟨hmem, sa1, sa2, sa3, sdOR, _scost, sweather⟩,
      _ea1, _ea2, _ea3, esoft, eveg, ecost, _eweather, esen⟩
    exact ⟨hmem, sa1, sa2, sa3, esoft, eveg, sdOR, ecost, sweather, esen⟩
  · rintro ⟨hmem, a1, a2, a3, hsoft, hveg, hdOR, hcost, hindoor, hsen⟩
    refine ⟨⟨hmem, a1, a2, a3, hdOR, Or.inr hcost, hindoor⟩,
      a1, a2, a3, hsoft, hveg, hcost, ?_, hsen⟩
    intro hbad
    rw [hindoor hbad]
    simp

/-! ### Structural facts about `generateDayPlan` and `generateItinerary`

Rational arithmetic does not reduce definitionally, so concrete evaluations
are staged: list-level facts are settled by `decide` (they never touch ℚ)
and the arithmetic is then finished by `norm_num`. -/

lemma generateDayPlan_cost (choice : List Venue → Venue)
    (sample : List Venue → Nat → List Venue) (day : Nat) (p : UserPreferences)
    (w : WeatherData) (available : List Venue) (used : List String) :
    ((generateDayPlan choice sample day p w available used).1).estimated_cost =
      calculateDayCost ((generateDayPlan choice sample day p w available used).1).venues
        ((generateDayPlan choice sample day p w available used).1).transportation p := rfl

lemma generateDayPlan_transport (choice : List Venue → Venue)
    (sample : List Venue → Nat → List Venue) (day : Nat) (p : UserPreferences)
    (w : WeatherData) (available : List Venue) (used : List String) :
    ((generateDayPlan choice sample day p w available used).1).transportation =
      generateTransportation
        ((generateDayPlan choice sample day p w available used).1).venues p := rfl

lemma generateItinerary_ok (choice : Nat → List Venue → Venue)
    (sample : Nat → List Venue → Nat → List Venue) (p : UserPreferences)
    (w : WeatherData) (catalog : List Venue)
    (h : (getSuitableVenues p w catalog).isEmpty = false) :
    generateItinerary choice sample p w catalog = Except.ok
      { day_plans := tripDayPlans choice sample p w catalog
        total_cost := (calculateTotalCost (tripDayPlans choice sample p w catalog) p).1
        cost_breakdown := (calculateTotalCost (tripDayPlans choice sample p w catalog) p).2
        accessibility_score :=
          calculateAccessibilityScore (tripDayPlans choice sample p w catalog) p } := by
  simp [generateItinerary, h]


/-! ### C1 -/

/-- Claim C1 is false as stated: (a) in bad weather a `mixed`-tagged venue that
satisfies every §4.1 inclusion condition is nevertheless excluded by the
composed filter (the SQL prefilter keeps only `weather_suitability = indoor`),
and (b) a `halal` dietary restriction — which §4.1 says plays no role —
excludes a restaurant without halal options. -/
theorem C1_counterexample :
    (specInclusion mixedPark basicPrefs badWeather ∧
      getSuitableVenues basicPrefs badWeather [mixedPark] = []) ∧
    (specInclusion plainDiner halalPrefs goodWeather ∧
      getSuitableVenues halalPrefs goodWeather [plainDiner] = []) :=
  ⟨⟨by decide, by decide⟩, ⟨by decide, by decide⟩⟩

/-- Claim C1 (amended): a venue is in the Constraint Filter's output iff it is in
the catalog and passes the §4.1 conditions with two changes forced by the
code: in bad weather only `indoor` venues pass (`mixed` is excluded), and
when any of `soft_meals`/`vegetarian`/`halal` is requested a restaurant must
offer at least one of the requested options (so a `halal` requirement does
exclude venues). -/
theorem C1_filter_rule :
    ∀ (catalog : List Venue) (p : UserPreferences) (w : WeatherData) (v : Venue),
      v ∈ getSuitableVenues p w catalog ↔ (v ∈ catalog ∧ codeInclusion v p w) :=
  mem_getSuitableVenues

/-- Witness for `C1_filter_rule` at a concrete venue and catalog. -/
theorem C1_filter_rule_witness :
    mixedPark ∈ getSuitableVenues basicPrefs goodWeather [mixedPark] :=
  (C1_filter_rule [mixedPark] basicPrefs goodWeather mixedPark).mpr (by decide)

/-! ### C7 -/

/-- Claim C7 is false as stated: removing the dietary restriction `soft_meals`
from `{soft_meals, halal}` SHRINKS the pool — a soft-meal (non-halal)
restaurant passes the original filter but fails the relaxed one, because the
SQL OR-prefilter then demands halal. -/
theorem C7_counterexample :
    getSuitableVenues softHalalPrefs goodWeather [softDiner] = [softDiner] ∧
    getSuitableVenues
      { softHalalPrefs with
          dietary_restrictions := softHalalPrefs.dietary_restrictions.erase "soft_meals" }
      goodWeather [softDiner] = [] :=
  ⟨by decide, by decide⟩

/-- Claim C7 (amended): removing one mobility need or raising the budget ceiling
never shrinks the Constraint Filter's pool; the same does NOT hold for
removing a dietary restriction (see the counterexample). -/
theorem C7_monotone_mobility_budget :
    (∀ (catalog : List Venue) (p : UserPreferences) (w : WeatherData) (x : String)
        (v : Venue),
       v ∈ getSuitableVenues p w catalog →
       v ∈ getSuitableVenues { p with mobility_needs := p.mobility_needs.erase x } w
             catalog) ∧
    (∀ (catalog : List Venue) (p : UserPreferences) (w : WeatherData) (m : Int)
        (v : Venue),
       p.budget_range.2 ≤ m →
       v ∈ getSuitableVenues p w catalog →
       v ∈ getSuitableVenues { p with budget_range := (p.budget_range.1, m) } w
             catalog) := by
  constructor
  · intro catalog p w x v hv
    rw [mem_getSuitableVenues] at hv ⊢
    obtain ⟨hmem, a1, a2, a3, hsoft, hveg, hdOR, hcost, hind, hsen⟩ := hv
    exact ⟨hmem, fun hm => a1 (List.mem_of_mem_erase hm),
      fun hm => a2 (List.mem_of_mem_erase hm),
      fun hm => a3 (List.mem_of_mem_erase hm),
      hsoft, hveg, hdOR, hcost, hind, hsen⟩
  · intro catalog p w m v hm hv
    rw [mem_getSuitableVenues] at hv ⊢
    obtain ⟨hmem, a1, a2, a3, hsoft, hveg, hdOR, hcost, hind, hsen⟩ := hv
    exact ⟨hmem, a1, a2, a3, hsoft, hveg, hdOR, le_trans hcost hm, hind, hsen⟩

/-- Witness for `C7_monotone_mobility_budget` at concrete inputs. -/
theorem C7_monotone_witness :
    (mixedPark ∈ getSuitableVenues
        { basicPrefs with mobility_needs := basicPrefs.mobility_needs.erase "wheelchair" }
        goodWeather [mixedPark]) ∧
    (mixedPark ∈ getSuitableVenues
        { basicPrefs with budget_range := (basicPrefs.budget_range.1, 200) }
        goodWeather [mixedPark]) :=
  ⟨C7_monotone_mobility_budget.1 [mixedPark] basicPrefs goodWeather "wheelchair" mixedPark
     (by decide),
   C7_monotone_mobility_budget.2 [mixedPark] basicPrefs goodWeather 200 mixedPark
     (by decide) (by decide)⟩

/-! ### C4 -/

/-- Claim C4: with a non-empty group, `generate_itinerary` raises exactly when the
Constraint Filter's pool is empty before any day is scheduled, and for any
other input (including a pool with no restaurants or attractions) it returns
an itinerary; this holds for every outcome of the random source. -/
theorem C4_error_iff_empty_pool :
    ∀ (choice : Nat → List Venue → Venue) (sample : Nat → List Venue → Nat → List Venue)
      (p : UserPreferences) (w : WeatherData) (catalog : List Venue),
      1 ≤ p.total_people →
      ((∃ e, generateItinerary choice sample p w catalog = Except.error e) ↔
        getSuitableVenues p w catalog = []) := by
  intro choice sample p w catalog _hp
  constructor
  · rintro ⟨e, he⟩
    by_contra hne
    have h2 : (getSuitableVenues p w catalog).isEmpty = false := by
      rcases h3 : (getSuitableVenues p w catalog).isEmpty with _ | _
      · rfl
      · exact absurd (List.isEmpty_iff.mp h3) hne
    simp [generateItinerary, h2] at he
  · intro h
    exact ⟨"No suitable venues found for your requirements",
      by simp [generateItinerary, h]⟩

/-- Witness for `C4_error_iff_empty_pool` at an empty catalog. -/
theorem C4_witness :
    getSuitableVenues basicPrefs goodWeather [] = [] :=
  (C4_error_iff_empty_pool headChoiceD takeSampleD basicPrefs goodWeather []
      (by decide)).mp
    ⟨"No suitable venues found for your requirements", by decide⟩

/-! ### C2 -/

lemma seniorPool :
    getSuitableVenues seniorPrefs goodWeather [discountDiner] = [discountDiner] := by
  decide

lemma seniorTripPlans :
    tripDayPlans headChoiceD takeSampleD seniorPrefs goodWeather [discountDiner] =
      [(generateDayPlan headChoice takeSample 1 seniorPrefs goodWeather
          [discountDiner] []).1] := by
  rw [tripDayPlans, seniorPool]
  rfl

lemma seniorDayVenues :
    ((generateDayPlan headChoice takeSample 1 seniorPrefs goodWeather
        [discountDiner] []).1).venues = [discountDiner] := by
  decide

lemma seniorDayTransport :
    ((generateDayPlan headChoice takeSample 1 seniorPrefs goodWeather
        [discountDiner] []).1).transportation = [] := by
  rw [generateDayPlan_transport, seniorDayVenues]
  rfl

lemma seniorDayCost :
    ((generateDayPlan headChoice takeSample 1 seniorPrefs goodWeather
        [discountDiner] []).1).estimated_cost = 160 := by
  rw [generateDayPlan_cost, seniorDayVenues, seniorDayTransport]
  norm_num [calculateDayCost, venueDayCost, seniorPrefs, discountDiner,
    UserPreferences.total_people, UserPreferences.has_seniors,
    UserPreferences.has_children]

/-- Claim C2: the claim is right and the code is wrong.  At a one-day itinerary
whose only venue is a senior-discounted restaurant (average cost 100, group
of 2), the day plan's `estimated_cost` is 160 (20% discount applied by
`_calculate_day_cost`) but the itinerary's `total_cost` is 200, because
`_calculate_total_cost` sums the **undiscounted** average venue cost.  So
`total_cost` differs from the sum of the DayPlan costs whenever a discount
applies. -/
theorem C2_total_cost_ignores_discounts :
    (generateItinerary headChoiceD takeSampleD seniorPrefs goodWeather
        [discountDiner]).map
      (fun it => (it.total_cost, (it.day_plans.map DayPlan.estimated_cost).sum)) =
      Except.ok (200, 160) := by
  rw [generateItinerary_ok headChoiceD takeSampleD seniorPrefs goodWeather
    [discountDiner] (by decide)]
  simp only [Except.map, seniorTripPlans, Except.ok.injEq, Prod.mk.injEq,
    List.map_cons, List.map_nil, List.sum_cons, List.sum_nil, add_zero]
  constructor
  · simp only [calculateTotalCost, List.map_cons, List.map_nil, List.sum_cons,
      List.sum_nil, seniorDayVenues, seniorDayTransport]
    norm_num [discountDiner, seniorPrefs, UserPreferences.total_people]
  · exact seniorDayCost

/-! ### C3 -/

lemma restPool :
    getSuitableVenues restNeedPrefs goodWeather [bareParkVenue] = [bareParkVenue] := by
  decide

lemma restTripPlans :
    tripDayPlans headChoiceD takeSampleD restNeedPrefs goodWeather [bareParkVenue] =
      [(generateDayPlan headChoice takeSample 1 restNeedPrefs goodWeather
          [bareParkVenue] []).1] := by
  rw [tripDayPlans, restPool]
  rfl

lemma restDayVenues :
    ((generateDayPlan headChoice takeSample 1 restNeedPrefs goodWeather
        [bareParkVenue] []).1).venues = [bareParkVenue] := by
  decide

/-- Claim C3: the claim is right and the code is wrong.  When the user requires
accessibility and the single selected venue has all five facility flags
false, `_calculate_accessibility_score` returns `(0 / 5) * 5 = 0.0`, below
the documented 1.0 lower bound (`models.py` documents the score as a "1-5
rating"). -/
theorem C3_score_can_be_zero :
    (generateItinerary headChoiceD takeSampleD restNeedPrefs goodWeather
        [bareParkVenue]).map Itinerary.accessibility_score = Except.ok 0 := by
  rw [generateItinerary_ok headChoiceD takeSampleD restNeedPrefs goodWeather
    [bareParkVenue] (by decide)]
  simp only [Except.map, restTripPlans, Except.ok.injEq]
  simp only [calculateAccessibilityScore, List.map_cons, List.map_nil, List.sum_cons,
    List.sum_nil, restDayVenues]
  norm_num [bareParkVenue, restNeedPrefs, round1,
    UserPreferences.requires_accessibility]

/-! ### C6 -/


/-- Claim C6: the claim is right and the code is wrong.  `generate_itinerary`
performs no input validation: on preferences with min > max budget, zero
trip duration and an empty transportation preference it still returns an
itinerary (with zero day plans) instead of failing fast with a validation
error. -/
theorem C6_no_input_validation :
    ((generateItinerary headChoiceD takeSampleD invalidPrefs goodWeather
        [bareParkVenue]).isOk = true) ∧
    invalidPrefs.budget_range.2 < invalidPrefs.budget_range.1 ∧
    invalidPrefs.trip_duration < 1 ∧
    invalidPrefs.transportation_preference = [] := by
  refine ⟨?_, by decide, by decide, rfl⟩
  rw [generateItinerary_ok headChoiceD takeSampleD invalidPrefs goodWeather
    [bareParkVenue] (by decide)]
  rfl

/-! ### Properties of the admissible random sources -/

lemma headChoice_mem : ∀ (l : List Venue), l ≠ [] → headChoice l ∈ l := by
  intro l h
  cases l with
  | nil => exact absurd rfl h
  | cons a t => simp [headChoice]

lemma takeSample_mem : ∀ (l : List Venue) (k : Nat) (x : Venue),
    x ∈ takeSample l k → x ∈ l :=
  fun l k _x hx => List.take_subset k l hx

lemma takeSample_nodup : ∀ (l : List Venue) (k : Nat), l.Nodup → (takeSample l k).Nodup :=
  fun l k h => h.sublist (List.take_sublist k l)

/-! ### Structure of the Daily Selector -/

lemma mealPick_singleton (choice : List Venue → Venue) (restaurants : List Venue)
    (p : UserPreferences) (h : restaurants.isEmpty = false) :
    ∃ m, mealPick choice restaurants p = [m] := by
  rw [mealPick, if_neg (by simp [h])]
  split_ifs <;> exact ⟨_, rfl⟩

lemma mealPick_mem (choice : List Venue → Venue) (restaurants : List Venue)
    (p : UserPreferences) (hchoice : ∀ l : List Venue, l ≠ [] → choice l ∈ l) :
    ∀ v ∈ mealPick choice restaurants p, v ∈ restaurants := by
  intro v hv
  rw [mealPick] at hv
  split_ifs at hv with h1 h2 h3
  · exact absurd hv (List.not_mem_nil v)
  · rw [List.mem_singleton] at hv
    subst hv
    exact hchoice _ (by simpa [List.isEmpty_iff] using h1)
  · rw [List.mem_singleton] at hv
    subst hv
    exact List.mem_of_mem_filter
      (hchoice _ (by simpa [List.isEmpty_iff] using h3))
  · rw [List.mem_singleton] at hv
    subst hv
    exact hchoice _ (by simpa [List.isEmpty_iff] using h1)

lemma mealPick_discount (choice : List Venue → Venue) (restaurants : List Venue)
    (p : UserPreferences) (hchoice : ∀ l : List Venue, l ≠ [] → choice l ∈ l)
    (hsc : (p.has_seniors || p.has_children) = true)
    (hd : ∃ r ∈ restaurants, (r.elderly_discount || r.child_discount) = true) :
    ∀ v ∈ mealPick choice restaurants p,
      (v.elderly_discount || v.child_discount) = true := by
  intro v hv
  obtain ⟨r, hr, hrflag⟩ := hd
  have hne : restaurants.isEmpty = false := by
    cases hx : restaurants.isEmpty
    · rfl
    · rw [List.isEmpty_iff] at hx
      rw [hx] at hr
      exact absurd hr (List.not_mem_nil r)
  have hdne : (restaurants.filter
      (fun r => r.elderly_discount || r.child_discount)).isEmpty = false := by
    cases hx : (restaurants.filter (fun r => r.elderly_discount || r.child_discount)).isEmpty
    · rfl
    · rw [List.isEmpty_iff] at hx
      have : r ∈ restaurants.filter (fun r => r.elderly_discount || r.child_discount) :=
        List.mem_filter.mpr ⟨hr, hrflag⟩
      rw [hx] at this
      exact absurd this (List.not_mem_nil r)
  rw [mealPick, if_neg (by simp [hne]), if_pos hsc, if_neg (by simp [hdne])] at hv
  rw [List.mem_singleton] at hv
  subst hv
  have := hchoice (restaurants.filter (fun r => r.elderly_discount || r.child_discount))
    (by simpa [List.isEmpty_iff] using (by simp [hdne] : ¬(restaurants.filter
      (fun r => r.elderly_discount || r.child_discount)).isEmpty = true))
  exact (List.mem_filter.mp this).2

lemma pickExperiences_mem (sample : List Venue → Nat → List Venue)
    (attractions : List Venue) (remaining : Nat) (w : WeatherData)
    (hsmem : ∀ (l : List Venue) (k : Nat) (x : Venue), x ∈ sample l k → x ∈ l) :
    ∀ x ∈ pickExperiences sample attractions remaining w, x ∈ attractions := by
  intro x hx
  rw [pickExperiences] at hx
  split_ifs at hx with h1 h2 h3
  · exact hsmem _ _ _ hx
  · exact List.mem_of_mem_filter (hsmem _ _ _ hx)
  · exact hsmem _ _ _ hx
  · exact List.mem_of_mem_filter (hsmem _ _ _ hx)

lemma pickExperiences_nodup (sample : List Venue → Nat → List Venue)
    (attractions : List Venue) (remaining : Nat) (w : WeatherData)
    (hsnd : ∀ (l : List Venue) (k : Nat), l.Nodup → (sample l k).Nodup)
    (h : attractions.Nodup) :
    (pickExperiences sample attractions remaining w).Nodup := by
  rw [pickExperiences]
  split_ifs <;> exact hsnd _ _ (by first | exact h | exact h.filter _)

/-- The Daily Selector on a non-empty pool is a meal pick plus an optional
experience sample, truncated to the per-day cap. -/
lemma selectDailyVenues_decomp (choice : List Venue → Venue)
    (sample : List Venue → Nat → List Venue) (venues : List Venue)
    (p : UserPreferences) (w : WeatherData) (h : venues.isEmpty = false) :
    ∃ extra : List Venue,
      selectDailyVenues choice sample venues p w =
        (mealPick choice (venues.filter isRestaurantCategory) p ++ extra).take
          maxVenuesPerDay ∧
      (extra = [] ∨ ∃ rem, extra =
        pickExperiences sample (venues.filter isExperienceCategory) rem w) := by
  rw [selectDailyVenues, if_neg (by simp [h])]
  refine ⟨_, rfl, ?_⟩
  split_ifs with hc
  · exact Or.inr ⟨_, rfl⟩
  · exact Or.inl rfl

lemma extra_not_restaurant (sample : List Venue → Nat → List Venue)
    (venues : List Venue) (w : WeatherData) (extra : List Venue)
    (hsmem : ∀ (l : List Venue) (k : Nat) (x : Venue), x ∈ sample l k → x ∈ l)
    (hex : extra = [] ∨ ∃ rem, extra =
      pickExperiences sample (venues.filter isExperienceCategory) rem w) :
    ∀ x ∈ extra, isRestaurantCategory x = false := by
  rcases hex with rfl | ⟨rem, rfl⟩
  · intro x hx
    exact absurd hx (List.not_mem_nil x)
  · intro x hx
    have hxm := pickExperiences_mem sample _ rem w hsmem x hx
    have hxc := (List.mem_filter.mp hxm).2
    rw [isExperienceCategory, decide_eq_true_eq] at hxc
    rw [isRestaurantCategory, decide_eq_false_iff_not]
    rcases hxc with hc | hc | hc <;> rw [hc] <;> intro hcc <;> exact nomatch hcc

/-! ### C8 -/

/-- Claim C8: whenever a day's candidate pool contains a restaurant, the Daily
Selector returns exactly one restaurant-category venue, for every admissible
random source (hence for every outcome of `random.choice`/`random.sample`);
and when the group has a senior or a child and some restaurant candidate
carries a discount flag, the selected restaurant carries a discount flag. -/
theorem C8_exactly_one_meal (choice : List Venue → Venue)
    (sample : List Venue → Nat → List Venue) (pool : List Venue)
    (p : UserPreferences) (w : WeatherData)
    (hchoice : ∀ l : List Venue, l ≠ [] → choice l ∈ l)
    (hsmem : ∀ (l : List Venue) (k : Nat) (x : Venue), x ∈ sample l k → x ∈ l)
    (hrest : ∃ r ∈ pool, r.category = VenueCategory.restaurant) :
    ((selectDailyVenues choice sample pool p w).countP isRestaurantCategory = 1) ∧
    ((p.has_seniors || p.has_children) = true →
      (∃ r ∈ pool, r.category = VenueCategory.restaurant ∧
        (r.elderly_discount || r.child_discount) = true) →
      ∀ v ∈ selectDailyVenues choice sample pool p w,
        v.category = VenueCategory.restaurant →
        (v ∈ pool ∧ (v.elderly_discount || v.child_discount) = true)) := by
  obtain ⟨r, hrpool, hrcat⟩ := hrest
  have hne : pool.isEmpty = false := by
    cases hx : pool.isEmpty
    · rfl
    · rw [List.isEmpty_iff] at hx
      rw [hx] at hrpool
      exact absurd hrpool (List.not_mem_nil r)
  obtain ⟨extra, heq, hex⟩ := selectDailyVenues_decomp choice sample pool p w hne
  have hrmem : r ∈ pool.filter isRestaurantCategory :=
    List.mem_filter.mpr ⟨hrpool, by simp [isRestaurantCategory, hrcat]⟩
  have hrne : (pool.filter isRestaurantCategory).isEmpty = false := by
    cases hx : (pool.filter isRestaurantCategory).isEmpty
    · rfl
    · rw [List.isEmpty_iff] at hx
      rw [hx] at hrmem
      exact absurd hrmem (List.not_mem_nil r)
  obtain ⟨m, hm⟩ := mealPick_singleton choice (pool.filter isRestaurantCategory) p hrne
  have hmmem : m ∈ pool.filter isRestaurantCategory := by
    have := mealPick_mem choice (pool.filter isRestaurantCategory) p hchoice m
    rw [hm] at this
    exact this (List.mem_singleton_self m)
  have hmrest : isRestaurantCategory m = true := (List.mem_filter.mp hmmem).2
  have hextra := extra_not_restaurant sample pool w extra hsmem hex
  have hres : selectDailyVenues choice sample pool p w = m :: extra.take 2 := by
    rw [heq, hm, List.singleton_append]
    rfl
  constructor
  · rw [hres, List.countP_cons, hmrest]
    have : (extra.take 2).countP isRestaurantCategory = 0 := by
      rw [List.countP_eq_zero]
      intro a ha
      rw [hextra a (List.take_subset 2 extra ha)]
      exact fun hh => nomatch hh
    rw [this]
    rfl
  · intro hsc hdisc v hv hvcat
    rw [hres] at hv
    rcases List.mem_cons.mp hv with rfl | hv2
    · obtain ⟨r2, hr2pool, hr2cat, hr2flag⟩ := hdisc
      have hr2mem : r2 ∈ pool.filter isRestaurantCategory :=
        List.mem_filter.mpr ⟨hr2pool, by simp [isRestaurantCategory, hr2cat]⟩
      refine ⟨List.mem_of_mem_filter hmmem, ?_⟩
      refine mealPick_discount choice (pool.filter isRestaurantCategory) p hchoice hsc
        ⟨r2, hr2mem, hr2flag⟩ v ?_
      rw [hm]
      exact List.mem_singleton_self v
    · have := hextra v (List.take_subset 2 extra hv2)
      rw [isRestaurantCategory, decide_eq_false_iff_not] at this
      exact absurd hvcat this

/-- Witness for `C8_exactly_one_meal` at a concrete pool and the
deterministic head/take random source. -/
theorem C8_witness :
    (selectDailyVenues headChoice takeSample [discountDiner, mixedPark] seniorPrefs
      goodWeather).countP isRestaurantCategory = 1 :=
  (C8_exactly_one_meal headChoice takeSample [discountDiner, mixedPark] seniorPrefs
    goodWeather headChoice_mem takeSample_mem
    ⟨discountDiner, by decide, by decide⟩).1

/-! ### C10 -/

/-- Claim C10: within one Daily Selector result no venue appears twice, for every
admissible random source, provided the candidate pool itself has no
duplicates (guaranteed by the catalog invariant): the meal is
restaurant-category while the experiences are not, and the experience sample
is without replacement. -/
theorem C10_day_venues_nodup (choice : List Venue → Venue)
    (sample : List Venue → Nat → List Venue) (pool : List Venue)
    (p : UserPreferences) (w : WeatherData)
    (hchoice : ∀ l : List Venue, l ≠ [] → choice l ∈ l)
    (hsmem : ∀ (l : List Venue) (k : Nat) (x : Venue), x ∈ sample l k → x ∈ l)
    (hsnd : ∀ (l : List Venue) (k : Nat), l.Nodup → (sample l k).Nodup)
    (hpool : pool.Nodup) :
    (selectDailyVenues choice sample pool p w).Nodup := by
  cases hne : pool.isEmpty with
  | true =>
      rw [selectDailyVenues, if_pos (by simp [hne])]
      exact List.nodup_nil
  | false =>
      obtain ⟨extra, heq, hex⟩ := selectDailyVenues_decomp choice sample pool p w hne
      rw [heq]
      refine ((List.take_sublist _ _).nodup) ?_
      have hexnd : extra.Nodup := by
        rcases hex with rfl | ⟨rem, rfl⟩
        · exact List.nodup_nil
        · exact pickExperiences_nodup sample _ rem w hsnd (hpool.filter _)
      have hextra := extra_not_restaurant sample pool w extra hsmem hex
      cases hrne : (pool.filter isRestaurantCategory).isEmpty with
      | true =>
          rw [mealPick, if_pos (by simp [hrne]), List.nil_append]
          exact hexnd
      | false =>
          obtain ⟨m, hm⟩ :=
            mealPick_singleton choice (pool.filter isRestaurantCategory) p hrne
          have hmmem : m ∈ pool.filter isRestaurantCategory := by
            have := mealPick_mem choice (pool.filter isRestaurantCategory) p hchoice m
            rw [hm] at this
            exact this (List.mem_singleton_self m)
          have hmrest : isRestaurantCategory m = true := (List.mem_filter.mp hmmem).2
          rw [hm, List.singleton_append]
          refine List.nodup_cons.mpr ⟨?_, hexnd⟩
          intro hmem
          rw [hextra m hmem] at hmrest
          exact nomatch hmrest

/-- Witness for `C10_day_venues_nodup` at a concrete duplicate-free pool. -/
theorem C10_witness :
    (selectDailyVenues headChoice takeSample [discountDiner, mixedPark] seniorPrefs
      goodWeather).Nodup :=
  C10_day_venues_nodup headChoice takeSample [discountDiner, mixedPark] seniorPrefs
    goodWeather headChoice_mem takeSample_mem takeSample_nodup (by decide)

/-! ### C9 -/

lemma selectDailyVenues_length_le (choice : List Venue → Venue)
    (sample : List Venue → Nat → List Venue) (venues : List Venue)
    (p : UserPreferences) (w : WeatherData) :
    (selectDailyVenues choice sample venues p w).length ≤ maxVenuesPerDay := by
  rw [selectDailyVenues]
  split_ifs with h
  · simp [maxVenuesPerDay]
  · simp only [List.length_take]
    exact min_le_left _ _

lemma generateDayPlan_venues_len (choice : List Venue → Venue)
    (sample : List Venue → Nat → List Venue) (day : Nat) (p : UserPreferences)
    (w : WeatherData) (available : List Venue) (used : List String) :
    ((generateDayPlan choice sample day p w available used).1).venues.length ≤
      maxVenuesPerDay := by
  have hx : ((generateDayPlan choice sample day p w available used).1).venues =
      selectDailyVenues choice sample
        (if (available.filter (fun v => !(used.contains v.id))).isEmpty then available
          else available.filter (fun v => !(used.contains v.id))) p w := rfl
  rw [hx]
  exact selectDailyVenues_length_le _ _ _ _ _

/-- Every day plan produced by the day loop satisfies `P`, provided every
`generateDayPlan` output does. -/
lemma foldl_dayStep_inv {P : DayPlan → Prop} (choice : Nat → List Venue → Venue)
    (sample : Nat → List Venue → Nat → List Venue) (p : UserPreferences)
    (w : WeatherData) (suitable : List Venue)
    (hnew : ∀ (c : List Venue → Venue) (s : List Venue → Nat → List Venue)
      (d : Nat) (used : List String),
      P (generateDayPlan c s d p w suitable used).1) :
    ∀ (l : List Nat) (acc : List DayPlan × List String),
      (∀ dp ∈ acc.1, P dp) →
      ∀ dp ∈ (l.foldl (dayStep choice sample p w suitable) acc).1, P dp := by
  intro l
  induction l with
  | nil =>
      intro acc hacc dp hdp
      exact hacc dp hdp
  | cons x xs ih =>
      intro acc hacc dp hdp
      rw [List.foldl_cons] at hdp
      refine ih _ ?_ dp hdp
      intro dq hdq
      simp only [dayStep] at hdq
      rcases List.mem_append.mp hdq with hq | hq
      · exact hacc dq hq
      · rw [List.mem_singleton] at hq
        subst hq
        exact hnew _ _ _ _

lemma tripDayPlans_inv {P : DayPlan → Prop} (choice : Nat → List Venue → Venue)
    (sample : Nat → List Venue → Nat → List Venue) (p : UserPreferences)
    (w : WeatherData) (catalog : List Venue)
    (hnew : ∀ (c : List Venue → Venue) (s : List Venue → Nat → List Venue)
      (d : Nat) (used : List String),
      P (generateDayPlan c s d p w (getSuitableVenues p w catalog) used).1) :
    ∀ dp ∈ tripDayPlans choice sample p w catalog, P dp := by
  intro dp hdp
  rw [tripDayPlans] at hdp
  exact foldl_dayStep_inv choice sample p w (getSuitableVenues p w catalog) hnew
    (List.range p.trip_duration) ([], []) (by intro dq hdq; exact absurd hdq (List.not_mem_nil dq))
    dp hdp

/-- Claim C9: every DayPlan of every generated Itinerary holds at most 3 venues,
for all preferences, catalogs, weather readings and outcomes of the random
selection. -/
theorem C9_day_venue_cap (choice : Nat → List Venue → Venue)
    (sample : Nat → List Venue → Nat → List Venue) (p : UserPreferences)
    (w : WeatherData) (catalog : List Venue) (itin : Itinerary)
    (hgen : generateItinerary choice sample p w catalog = Except.ok itin) :
    ∀ dp ∈ itin.day_plans, dp.venues.length ≤ 3 := by
  intro dp hdp
  by_cases h : (getSuitableVenues p w catalog).isEmpty = true
  · rw [generateItinerary, if_pos h] at hgen
    exact nomatch hgen
  · have h2 : (getSuitableVenues p w catalog).isEmpty = false :=
      Bool.eq_false_iff.mpr h
    rw [generateItinerary_ok choice sample p w catalog h2] at hgen
    have hit := (Except.ok.inj hgen).symm
    subst hit
    exact @tripDayPlans_inv (fun dq => dq.venues.length ≤ 3) choice sample p w catalog
      (fun c s d used => generateDayPlan_venues_len c s d p w _ used) dp hdp


lemma seniorItin_gen :
    generateItinerary headChoiceD takeSampleD seniorPrefs goodWeather [discountDiner] =
      Except.ok seniorItin :=
  generateItinerary_ok headChoiceD takeSampleD seniorPrefs goodWeather [discountDiner]
    (by decide)

lemma seniorItin_dayplans :
    seniorItin.day_plans =
      [(generateDayPlan headChoice takeSample 1 seniorPrefs goodWeather
          [discountDiner] []).1] := by
  rw [show seniorItin.day_plans =
    tripDayPlans headChoiceD takeSampleD seniorPrefs goodWeather [discountDiner] from rfl]
  exact seniorTripPlans

/-- Witness for `C9_day_venue_cap` at the one-day senior trip. -/
theorem C9_witness :
    ((generateDayPlan headChoice takeSample 1 seniorPrefs goodWeather
        [discountDiner] []).1).venues.length ≤ 3 :=
  C9_day_venue_cap headChoiceD takeSampleD seniorPrefs goodWeather [discountDiner]
    seniorItin seniorItin_gen
    ((generateDayPlan headChoice takeSample 1 seniorPrefs goodWeather
        [discountDiner] []).1)
    (by rw [seniorItin_dayplans]; exact List.mem_singleton_self _)

/-! ### C5 -/

lemma transportSegmentFor_origin (p : UserPreferences) (o d : String) :
    (transportSegmentFor p o d).origin = o := by
  rw [transportSegmentFor]
  split_ifs <;> rfl

lemma transportSegmentFor_destination (p : UserPreferences) (o d : String) :
    (transportSegmentFor p o d).destination = d := by
  rw [transportSegmentFor]
  split_ifs <;> rfl

lemma transportSegmentFor_spec (p : UserPreferences) (o d : String) :
    if "mtr" ∈ p.transportation_preference then
      (transportSegmentFor p o d).mode = "mtr" ∧
        (transportSegmentFor p o d).duration_minutes = 20 ∧
        (transportSegmentFor p o d).cost = 15
    else if "taxi" ∈ p.transportation_preference then
      (transportSegmentFor p o d).mode = "taxi" ∧
        (transportSegmentFor p o d).duration_minutes = 15 ∧
        (transportSegmentFor p o d).cost = 50
    else
      (transportSegmentFor p o d).mode = "bus" ∧
        (transportSegmentFor p o d).duration_minutes = 25 ∧
        (transportSegmentFor p o d).cost = 8 := by
  split_ifs with h1 h2
  · simp [transportSegmentFor, h1]
  · simp [transportSegmentFor, h1, h2]
  · simp [transportSegmentFor, h1, h2]

lemma generateTransportation_cons (a b : Venue) (t : List Venue)
    (p : UserPreferences) :
    generateTransportation (a :: b :: t) p =
      transportSegmentFor p a.name b.name :: generateTransportation (b :: t) p := rfl

lemma generateTransportation_len (p : UserPreferences) (venues : List Venue) :
    (generateTransportation venues p).length = venues.length - 1 := by
  rw [generateTransportation, List.length_map, List.length_zip, List.length_tail]
  exact Nat.min_eq_right (Nat.sub_le _ 1)

lemma generateTransportation_origins (p : UserPreferences) :
    ∀ venues : List Venue,
      (generateTransportation venues p).map (fun s => s.origin) =
        (venues.map (fun v => v.name)).dropLast := by
  intro venues
  induction venues with
  | nil => rfl
  | cons a t ih =>
      cases t with
      | nil => rfl
      | cons b t2 =>
          rw [generateTransportation_cons, List.map_cons,
            transportSegmentFor_origin, ih]
          simp

lemma generateTransportation_destinations (p : UserPreferences) :
    ∀ venues : List Venue,
      (generateTransportation venues p).map (fun s => s.destination) =
        (venues.map (fun v => v.name)).tail := by
  intro venues
  induction venues with
  | nil => rfl
  | cons a t ih =>
      cases t with
      | nil => rfl
      | cons b t2 =>
          rw [generateTransportation_cons, List.map_cons,
            transportSegmentFor_destination, ih]
          simp

lemma generateTransportation_modes (p : UserPreferences) (venues : List Venue) :
    ∀ s ∈ generateTransportation venues p,
      if "mtr" ∈ p.transportation_preference then
        s.mode = "mtr" ∧ s.duration_minutes = 20 ∧ s.cost = 15
      else if "taxi" ∈ p.transportation_preference then
        s.mode = "taxi" ∧ s.duration_minutes = 15 ∧ s.cost = 50
      else
        s.mode = "bus" ∧ s.duration_minutes = 25 ∧ s.cost = 8 := by
  intro s hs
  rw [generateTransportation] at hs
  obtain ⟨ab, _hab, rfl⟩ := List.mem_map.mp hs
  exact transportSegmentFor_spec p ab.1.name ab.2.name


/-- Claim C5 is false as stated: with `transportation_preference = [walking]` there
is no mode of the fixed order (mtr, taxi, bus) in the preference set, yet the
code still emits a segment — with mode `bus`, which is not in the user's
preference. -/
theorem C5_counterexample :
    (generateTransportation [mixedPark, plainDiner] walkPrefs).map (fun s => s.mode) =
        ["bus"] ∧
    ("bus" ∈ walkPrefs.transportation_preference → False) := by
  constructor
  · decide
  · decide

/-- Claim C5 (amended): a DayPlan's transport list always has `max(0, n-1)`
segments, segment i connecting venue i to venue i+1, with fixed constants
mtr = 20 min / 15.0, taxi = 15 min / 50.0, bus = 25 min / 8.0; the mode is
mtr if mtr is preferred, else taxi if taxi is preferred, else bus — bus is a
default and is used even when it is not in the preference set. -/
theorem C5_transport_segments (venues : List Venue) (p : UserPreferences) :
    (generateTransportation venues p).length = venues.length - 1 ∧
    (generateTransportation venues p).map (fun s => s.origin) =
      (venues.map (fun v => v.name)).dropLast ∧
    (generateTransportation venues p).map (fun s => s.destination) =
      (venues.map (fun v => v.name)).tail ∧
    ∀ s ∈ generateTransportation venues p,
      if "mtr" ∈ p.transportation_preference then
        s.mode = "mtr" ∧ s.duration_minutes = 20 ∧ s.cost = 15
      else if "taxi" ∈ p.transportation_preference then
        s.mode = "taxi" ∧ s.duration_minutes = 15 ∧ s.cost = 50
      else
        s.mode = "bus" ∧ s.duration_minutes = 25 ∧ s.cost = 8 :=
  ⟨generateTransportation_len p venues, generateTransportation_origins p venues,
    generateTransportation_destinations p venues, generateTransportation_modes p venues⟩

/-- Witness for `C5_transport_segments` on a two-venue day with an
mtr-preferring user. -/
theorem C5_witness :
    (generateTransportation [mixedPark, plainDiner] basicPrefs).length = 1 ∧
    (if "mtr" ∈ basicPrefs.transportation_preference then
      (transportSegmentFor basicPrefs mixedPark.name plainDiner.name).mode = "mtr" ∧
        (transportSegmentFor basicPrefs mixedPark.name plainDiner.name).duration_minutes = 20 ∧
        (transportSegmentFor basicPrefs mixedPark.name plainDiner.name).cost = 15
    else if "taxi" ∈ basicPrefs.transportation_preference then
      (transportSegmentFor basicPrefs mixedPark.name plainDiner.name).mode = "taxi" ∧
        (transportSegmentFor basicPrefs mixedPark.name plainDiner.name).duration_minutes = 15 ∧
        (transportSegmentFor basicPrefs mixedPark.name plainDiner.name).cost = 50
    else
      (transportSegmentFor basicPrefs mixedPark.name plainDiner.name).mode = "bus" ∧
        (transportSegmentFor basicPrefs mixedPark.name plainDiner.name).duration_minutes = 25 ∧
        (transportSegmentFor basicPrefs mixedPark.name plainDiner.name).cost = 8) :=
  ⟨(C5_transport_segments [mixedPark, plainDiner] basicPrefs).1,
   (C5_transport_segments [mixedPark, plainDiner] basicPrefs).2.2.2
     (transportSegmentFor basicPrefs mixedPark.name plainDiner.name)
     (List.mem_singleton_self _)⟩

end HKTrip
